import Mathlib

/-!
Verification of the membership-tracing subsystem of the grouper-mcp server
(`src/index.js`): the recursive tracer `traceMembershipRecursive`, the path
flattener `flattenTracePath` and the tool entry point `handleTraceMembership`.

The remote Grouper web service is modelled as an oracle (`Backend`): each of
the four distinct request shapes the tracer issues is a field returning
`Except String` (an exception thrown by the backend client, or the parsed
response shape the tracer reads from the response envelope).  Every function
additionally returns the ordered list of backend calls it performed, so that
call-count properties of the spec can be stated.
-/

/-- A subject lookup as built by the handlers:
`{ subjectId, subjectSourceId? }`. -/
structure SubjectLookup where
  subjectId : String
  subjectSourceId : Option String
  deriving Repr, DecidableEq

/-- One record of `wsMemberships` as read by the tracer: only
`membershipType` and `groupName` are ever accessed. -/
structure WsMembership where
  membershipType : String
  groupName : String
  deriving Repr, DecidableEq

/-- A constituent-group reference inside a composite detail
(`detail.leftGroup` / `detail.rightGroup`); `displayName` may be absent. -/
structure CompRef where
  name : String
  displayName : Option String
  deriving Repr, DecidableEq

/-- The `detail` object of a `wsGroup`: the fields the tracer reads. -/
structure WsGroupDetail where
  hasComposite : Option String
  compositeType : Option String
  leftGroup : Option CompRef
  rightGroup : Option CompRef
  deriving Repr, DecidableEq

/-- One record of `wsGroups`: name, optional display name and description,
optional detail. -/
structure WsGroup where
  name : String
  displayName : Option String
  description : Option String
  detail : Option WsGroupDetail
  deriving Repr, DecidableEq

/-- One record of `wsSubjects` as returned by the get-members request:
`sourceId` is used to recognise group-typed members, `name` is the member
group's name. -/
structure WsSubject where
  id : String
  name : Option String
  sourceId : Option String
  deriving Repr, DecidableEq

/-- The triple the tracer extracts from a pair membership query:
`wsMemberships[0]`, `wsGroups[0]`, `wsSubjects[0]`. -/
structure PairResult where
  membership : Option WsMembership
  group : Option WsGroup
  subject : Option WsSubject
  deriving Repr, DecidableEq

/-- The four backend request shapes issued during a trace, with the
arguments that individuate them. -/
inductive BackendCall where
  | getMembershipPair (lookup : SubjectLookup) (groupName : String)
  | getImmediateMemberships (lookup : SubjectLookup)
  | getGroupMembers (groupName : String)
  | getAllMemberships (lookup : SubjectLookup)
  deriving Repr, DecidableEq

/-- The backend oracle: each field models one request shape, returning
either the thrown error message or the parts of the response envelope the
caller reads. -/
structure Backend where
  /-- memberships query, filter `All`, one subject and one group lookup. -/
  pairQuery : SubjectLookup → String → Except String PairResult
  /-- memberships query, filter `Immediate`, subject lookup only:
  `(wsMemberships, wsGroups)`. -/
  immediateQuery : SubjectLookup → Except String (List WsMembership × List WsGroup)
  /-- get-members query for one group: `results[0].wsSubjects`. -/
  membersQuery : String → Except String (List WsSubject)
  /-- memberships query, filter `All`, subject lookup only: `wsMemberships`. -/
  allQuery : SubjectLookup → Except String (List WsMembership)

/-- The derivation-tree node built by the tracer, one constructor per
object shape the source constructs.  For composite branches the chain field
is `Option (Option TraceNode)`: the outer option is field presence (the
branch was traced at all), the inner one is the traced result, which is
`null` when the recursive call found no membership. -/
inductive TraceNode where
  | maxDepth (description : String) (targetGroup : String)
  | cycleDetected (description : String) (targetGroup : String)
  | immediate (groupName : String) (groupDisplayName : String) (description : String)
  | effectiveNoPath (groupName : String) (groupDisplayName : String)
      (description : String) (note : String)
      (subjectImmediateGroupCount : Nat) (targetImmediateGroupMemberCount : Nat)
  | effective (groupName : String) (groupDisplayName : String) (description : String)
      (intermediateName : String) (intermediateDisplayName : String)
      (chain : Option TraceNode)
  | composite (groupName : String) (groupDisplayName : String)
      (compositeType : Option String)
      (leftName : String) (leftDisplayName : Option String) (leftIsMember : Bool)
      (leftChain : Option (Option TraceNode))
      (rightName : String) (rightDisplayName : Option String) (rightIsMember : Bool)
      (rightChain : Option (Option TraceNode))
  | fallback (typeName : String) (groupName : String) (groupDisplayName : String)
      (description : String)
  deriving Repr

/-- JavaScript `a || b` where `a` is an optional string and `b` a string:
an absent or empty string falls through to `b`. -/
def jsOrStr (a : Option String) (b : String) : String :=
  match a with
  | some s => if s == "" then b else s
  | none => b

/-- JavaScript `a || b` on two optional strings. -/
def jsOrOpt (a : Option String) (b : Option String) : Option String :=
  match a with
  | some s => if s == "" then b else some s
  | none => b

/-- `visited.add(g)` on the visited set, modelled as a duplicate-free list. -/
def insertVisited (g : String) (v : List String) : List String :=
  if v.contains g then v else g :: v

/-- The loop over the target's group-typed members: return the first member
whose name is in the subject's immediate-group name set, together with the
display name recovered from the immediate-membership response
(`groupInfo?.displayName || targetGroupMember.name`). -/
def firstIntersecting (targetGroupMembers : List WsSubject)
    (subjectGroupNames : List String) (wsGroups : List WsGroup) :
    Option (String × String) :=
  match targetGroupMembers with
  | [] => none
  | m :: rest =>
    match m.name with
    | some nm =>
      if subjectGroupNames.contains nm then
        some (nm, jsOrStr ((wsGroups.find? (fun g => g.name == nm)).bind WsGroup.displayName) nm)
      else firstIntersecting rest subjectGroupNames wsGroups
    | none => firstIntersecting rest subjectGroupNames wsGroups

/-- `groupDetail?.detail?.hasComposite === 'T'`, returning the detail when
the test passes. -/
def compositeDetailOf (g : Option WsGroup) : Option WsGroupDetail :=
  match g.bind WsGroup.detail with
  | some d => if d.hasComposite == some "T" then some d else none
  | none => none

/-- The fixed recursion bound of the tracer. -/
def MAX_DEPTH : Nat := 5

/-- `traceMembershipRecursive(subjectId, targetGroupName, subjectLookup,
visited, depth)`: returns the trace result (or the propagated backend
error) together with the ordered list of backend calls performed. -/
def traceMembershipRecursive (b : Backend) (subjectId : String)
    (targetGroupName : String) (subjectLookup : SubjectLookup)
    (visited : List String) (depth : Nat) :
    Except String (Option TraceNode) × List BackendCall :=
  if hd : depth > MAX_DEPTH then
    (.ok (some (.maxDepth
      "Maximum trace depth (5) reached - stopping trace to prevent timeout"
      targetGroupName)), [])
  else if visited.contains targetGroupName then
    (.ok (some (.cycleDetected ("Cycle detected at " ++ targetGroupName)
      targetGroupName)), [])
  else
    let visited1 := insertVisited targetGroupName visited
    let call0 := BackendCall.getMembershipPair subjectLookup targetGroupName
    match b.pairQuery subjectLookup targetGroupName with
    | .error e => (.error e, [call0])
    | .ok pr =>
      match pr.membership with
      | none => (.ok none, [call0])
      | some membership =>
        let displayName := jsOrStr (pr.group.bind WsGroup.displayName) targetGroupName
        let subjName := jsOrStr (pr.subject.bind WsSubject.name) subjectId
        if membership.membershipType == "immediate" then
          (.ok (some (.immediate targetGroupName displayName
            (subjName ++ " is a direct member of " ++ displayName))), [call0])
        else if membership.membershipType == "effective" then
          let call1 := BackendCall.getImmediateMemberships subjectLookup
          match b.immediateQuery subjectLookup with
          | .error e => (.error e, [call0, call1])
          | .ok (subjectMemberships, wsGroups) =>
            let subjectGroupNames :=
              (subjectMemberships.map WsMembership.groupName).dedup
            let call2 := BackendCall.getGroupMembers targetGroupName
            match b.membersQuery targetGroupName with
            | .error e => (.error e, [call0, call1, call2])
            | .ok targetMembers =>
              let targetGroupMembers :=
                targetMembers.filter (fun m => m.sourceId == some "g:gsa")
              match firstIntersecting targetGroupMembers subjectGroupNames wsGroups with
              | none =>
                (.ok (some (.effectiveNoPath targetGroupName displayName
                  (subjName ++ " is an effective member of " ++ displayName)
                  "Could not determine intermediate group path - membership may be through nested groups beyond immediate level"
                  subjectGroupNames.length targetGroupMembers.length)),
                 [call0, call1, call2])
              | some ig =>
                match traceMembershipRecursive b subjectId ig.1 subjectLookup
                    visited1 (depth + 1) with
                | (.error e, cc) => (.error e, [call0, call1, call2] ++ cc)
                | (.ok chainNode, cc) =>
                  (.ok (some (.effective targetGroupName displayName
                    (subjName ++ " is an effective member of " ++ displayName
                      ++ " via " ++ ig.2)
                    ig.1 ig.2 chainNode)),
                   [call0, call1, call2] ++ cc)
        else if membership.membershipType == "composite" then
          match compositeDetailOf pr.group with
          | none =>
            (.ok (some (.fallback membership.membershipType targetGroupName
              displayName
              (subjName ++ " has membership type " ++ membership.membershipType
                ++ " in " ++ displayName))), [call0])
          | some compositeDetail =>
            let call1 := BackendCall.getAllMemberships subjectLookup
            match b.allQuery subjectLookup with
            | .error e => (.error e, [call0, call1])
            | .ok allMembershipsList =>
              match compositeDetail.leftGroup, compositeDetail.rightGroup with
              | some leftGroup, some rightGroup =>
                let isInLeft :=
                  allMembershipsList.any (fun m => m.groupName == leftGroup.name)
                let isInRight :=
                  allMembershipsList.any (fun m => m.groupName == rightGroup.name)
                match (if isInLeft then
                    let t := traceMembershipRecursive b subjectId leftGroup.name
                      subjectLookup visited1 (depth + 1)
                    (t.1.map some, t.2)
                  else (.ok none, [])) with
                | (.error e, lc) => (.error e, [call0, call1] ++ lc)
                | (.ok leftChain, lc) =>
                  match (if compositeDetail.compositeType == some "intersection"
                        && isInRight then
                      let t := traceMembershipRecursive b subjectId rightGroup.name
                        subjectLookup visited1 (depth + 1)
                      (t.1.map some, t.2)
                    else (.ok none, [])) with
                  | (.error e, rc) => (.error e, [call0, call1] ++ lc ++ rc)
                  | (.ok rightChain, rc) =>
                    (.ok (some (.composite targetGroupName displayName
                      compositeDetail.compositeType
                      leftGroup.name leftGroup.displayName isInLeft leftChain
                      rightGroup.name rightGroup.displayName isInRight rightChain)),
                     [call0, call1] ++ lc ++ rc)
              | _, _ =>
                -- either constituent reference missing: the source throws a
                -- TypeError reading `.name`, after the all-memberships call
                (.error "TypeError: Cannot read properties of undefined",
                 [call0, call1])
        else
          (.ok (some (.fallback membership.membershipType targetGroupName
            displayName
            (subjName ++ " has membership type " ++ membership.membershipType
              ++ " in " ++ displayName))), [call0])
termination_by MAX_DEPTH + 1 - depth
decreasing_by
  all_goals
    simp only [MAX_DEPTH] at hd ⊢
    omega

/-- One hop of the flattened membership path.  The source pushes plain
objects with different field sets; absent fields are `none`. -/
structure Hop where
  groupName : Option String := none
  groupDisplayName : Option String := none
  membershipType : Option String := none
  description : Option String := none
  viaGroup : Option String := none
  compositeType : Option String := none
  leftGroup : Option String := none
  rightGroup : Option String := none
  pathThroughLeftGroup : Option Bool := none
  pathThroughRightGroup : Option Bool := none
  type : Option String := none
  deriving Repr, DecidableEq

/-- The hop pushed by the catch-all case of the flattener:
`{groupName: node.groupName || node.targetGroup, type, description}`. -/
def catchAllHop (groupName : Option String) (targetGroup : Option String)
    (ty : String) (desc : String) : Hop :=
  { groupName := jsOrOpt groupName targetGroup, type := some ty,
    description := some desc }

/-- `flattenTracePath` on a non-null trace node.  The source dispatches on
the node's `type` string and field presence; a node whose type string is
`composite` but which lacks the composite fields (the tracer's fallback
node for an undetailed composite membership) makes the source throw a
TypeError reading `leftGroup.name`, modelled as an error. -/
def flattenNode : TraceNode → Except String (List Hop)
  | .immediate gn gdn desc =>
    .ok [{ groupName := some gn, groupDisplayName := some gdn,
           membershipType := some "immediate", description := some desc }]
  | .effective gn gdn desc inm _idn chain =>
    match chain with
    | some c =>
      match flattenNode c with
      | .error e => .error e
      | .ok chainPath =>
        .ok (chainPath ++
          [{ groupName := some gn, groupDisplayName := some gdn,
             membershipType := some "effective", description := some desc,
             viaGroup := some inm }])
    | none => .ok [catchAllHop (some gn) none "effective" desc]
  | .effectiveNoPath gn _gdn desc _note _c1 _c2 =>
    .ok [catchAllHop (some gn) none "effective" desc]
  | .composite gn gdn ct ln _ldn _lim lch rn _rdn _rim rch =>
    match (match lch with | some (some c) => flattenNode c | _ => .ok []) with
    | .error e => .error e
    | .ok leftPath =>
      match (match rch with | some (some c) => flattenNode c | _ => .ok []) with
      | .error e => .error e
      | .ok rightPath =>
        let leftFlag : Option Bool :=
          match lch with | some (some _) => some true | _ => none
        let rightFlag : Option Bool :=
          match rch with | some (some _) => some true | _ => none
        .ok (leftPath ++ rightPath ++
          [{ groupName := some gn, groupDisplayName := some gdn,
             membershipType := some "composite", compositeType := ct,
             leftGroup := some ln, rightGroup := some rn,
             pathThroughLeftGroup := leftFlag,
             pathThroughRightGroup := rightFlag }])
  | .maxDepth desc tg =>
    .ok [catchAllHop none (some tg) "max_depth_reached" desc]
  | .cycleDetected desc tg =>
    .ok [catchAllHop none (some tg) "cycle_detected" desc]
  | .fallback t gn gdn desc =>
    if t == "immediate" then
      .ok [{ groupName := some gn, groupDisplayName := some gdn,
             membershipType := some "immediate", description := some desc }]
    else if t == "composite" then
      .error "TypeError: Cannot read properties of undefined"
    else
      .ok [catchAllHop (some gn) none t desc]

/-- `flattenTracePath(traceNode)`: the null node flattens to the empty
path. -/
def flattenTracePath : Option TraceNode → Except String (List Hop)
  | none => .ok []
  | some n => flattenNode n

/-- The three result shapes `handleTraceMembership` can return to the
host: the not-a-member short circuit, the full trace result, and the
`isError` shape produced by the catch block. -/
inductive ToolResult where
  | notMember (subject : String) (group : String) (message : String)
  | success (subjectId : String) (subjectName : String)
      (subjectSourceId : Option String)
      (groupName : String) (groupDisplayName : String)
      (groupDescription : Option String)
      (membershipType : String) (membershipPath : List Hop)
      (pathSummary : String)
  | errorResult (message : String)
  deriving Repr, DecidableEq

/-- `handleTraceMembership({groupName, subjectId, subjectSourceId?})`,
returning the tool result and the ordered list of backend calls made
during the invocation. -/
def handleTraceMembership (b : Backend) (groupName : String)
    (subjectId : String) (subjectSourceId : Option String) :
    ToolResult × List BackendCall :=
  let subjectLookup : SubjectLookup := ⟨subjectId, subjectSourceId⟩
  let call0 := BackendCall.getMembershipPair subjectLookup groupName
  match b.pairQuery subjectLookup groupName with
  | .error e => (.errorResult ("Error tracing membership: " ++ e), [call0])
  | .ok pr =>
    match pr.membership with
    | none =>
      (.notMember subjectId groupName "Subject is not a member of this group",
       [call0])
    | some membership =>
      let (traceRes, traceCalls) :=
        traceMembershipRecursive b subjectId groupName subjectLookup [] 0
      match traceRes with
      | .error e =>
        (.errorResult ("Error tracing membership: " ++ e), call0 :: traceCalls)
      | .ok recursiveTrace =>
        match flattenTracePath recursiveTrace with
        | .error e =>
          (.errorResult ("Error tracing membership: " ++ e), call0 :: traceCalls)
        | .ok membershipPath =>
          let subjName := jsOrStr (pr.subject.bind WsSubject.name) subjectId
          let pathSummary :=
            if membershipPath.length > 0 then
              subjName ++ " → " ++ String.intercalate " → "
                (membershipPath.map
                  (fun p => (jsOrOpt p.groupDisplayName p.groupName).getD ""))
            else "No path available"
          (.success (jsOrStr (pr.subject.map WsSubject.id) subjectId)
            subjName
            (jsOrOpt (pr.subject.bind WsSubject.sourceId) subjectSourceId)
            groupName
            (jsOrStr (pr.group.bind WsGroup.displayName) groupName)
            (pr.group.bind WsGroup.description)
            membership.membershipType membershipPath pathSummary,
           call0 :: traceCalls)

/-- Is there a `max_depth_reached` node anywhere in the trace tree? -/
def hasMaxDepthNode : TraceNode → Bool
  | .maxDepth _ _ => true
  | .effective _ _ _ _ _ chain =>
    (match chain with | some c => hasMaxDepthNode c | none => false)
  | .composite _ _ _ _ _ _ lch _ _ _ rch =>
    (match lch with | some (some c) => hasMaxDepthNode c | _ => false)
    || (match rch with | some (some c) => hasMaxDepthNode c | _ => false)
  | _ => false

/-- Is there a `cycle_detected` node anywhere in the trace tree? -/
def hasCycleNode : TraceNode → Bool
  | .cycleDetected _ _ => true
  | .effective _ _ _ _ _ chain =>
    (match chain with | some c => hasCycleNode c | none => false)
  | .composite _ _ _ _ _ _ lch _ _ _ rch =>
    (match lch with | some (some c) => hasCycleNode c | _ => false)
    || (match rch with | some (some c) => hasCycleNode c | _ => false)
  | _ => false

/-- Did a tracer invocation return (successfully) a tree containing a
`max_depth_reached` node? -/
def traceHasMaxDepth (r : Except String (Option TraceNode) × List BackendCall) :
    Bool :=
  match r.1 with
  | .ok (some n) => hasMaxDepthNode n
  | _ => false

/-- Did a tracer invocation return (successfully) a tree containing a
`cycle_detected` node? -/
def traceHasCycle (r : Except String (Option TraceNode) × List BackendCall) :
    Bool :=
  match r.1 with
  | .ok (some n) => hasCycleNode n
  | _ => false

/-- Did a tracer invocation return a `cycle_detected` node as its
top-level result? -/
def returnsCycleNode (r : Except String (Option TraceNode) × List BackendCall) :
    Bool :=
  match r.1 with
  | .ok (some (.cycleDetected _ _)) => true
  | _ => false

/-! ### Synthetic backends used to exercise the tracer -/

/-- A backend on which no subject is a member of anything. -/
def trivB : Backend where
  pairQuery := fun _ _ => .ok ⟨none, none, none⟩
  immediateQuery := fun _ => .ok ([], [])
  membersQuery := fun _ => .ok []
  allQuery := fun _ => .ok []

/-- Successor in the synthetic effective chain `g0 → g1 → ⋯ → g7`. -/
def chainNext (g : String) : Option String :=
  if g == "g0" then some "g1" else if g == "g1" then some "g2"
  else if g == "g2" then some "g3" else if g == "g3" then some "g4"
  else if g == "g4" then some "g5" else if g == "g5" then some "g6"
  else if g == "g6" then some "g7" else none

/-- A backend that reports `effective` membership for every group, with a
fresh distinct intermediate group at each level: the subject is
immediately in `g1 … g7`, and each `gN` has the single group-typed member
`g(N+1)`. -/
def chainB : Backend where
  pairQuery := fun _ g => .ok ⟨some ⟨"effective", g⟩, none, none⟩
  immediateQuery := fun _ => .ok
    ([⟨"immediate", "g1"⟩, ⟨"immediate", "g2"⟩, ⟨"immediate", "g3"⟩,
      ⟨"immediate", "g4"⟩, ⟨"immediate", "g5"⟩, ⟨"immediate", "g6"⟩,
      ⟨"immediate", "g7"⟩], [])
  membersQuery := fun g =>
    .ok (match chainNext g with
      | some nxt => [⟨nxt, some nxt, some "g:gsa"⟩]
      | none => [])
  allQuery := fun _ => .ok []

/-- A backend whose membership chain for `a` loops back to itself:
`a`'s only group-typed member is `b`, and `b`'s is `a`. -/
def loopB : Backend where
  pairQuery := fun _ g => .ok ⟨some ⟨"effective", g⟩, none, none⟩
  immediateQuery := fun _ => .ok ([⟨"immediate", "a"⟩, ⟨"immediate", "b"⟩], [])
  membersQuery := fun g =>
    .ok (if g == "a" then [⟨"b", some "b", some "g:gsa"⟩]
      else if g == "b" then [⟨"a", some "a", some "g:gsa"⟩] else [])
  allQuery := fun _ => .ok []

/-- A backend where `u` is a `union` composite of `l` and `r` and the
subject is a member of both constituents (`l` immediately). -/
def unionB : Backend where
  pairQuery := fun _ g =>
    if g == "u" then
      .ok ⟨some ⟨"composite", "u"⟩,
        some ⟨"u", some "U", none,
          some ⟨some "T", some "union", some ⟨"l", some "L"⟩, some ⟨"r", some "R"⟩⟩⟩,
        none⟩
    else if g == "l" then .ok ⟨some ⟨"immediate", "l"⟩, none, none⟩
    else .ok ⟨none, none, none⟩
  immediateQuery := fun _ => .ok ([], [])
  membersQuery := fun _ => .ok []
  allQuery := fun _ => .ok [⟨"immediate", "l"⟩, ⟨"immediate", "r"⟩]

/-- A backend with an `effective` membership of the subject in `t`,
resolvable through the single intermediate `m` (the subject is immediately
in `m`, and `m` is `t`'s only group-typed member); `t2` is an `effective`
membership whose intermediate sets do not intersect. -/
def effB : Backend where
  pairQuery := fun _ g =>
    if g == "t" then .ok ⟨some ⟨"effective", "t"⟩, none, none⟩
    else if g == "t2" then .ok ⟨some ⟨"effective", "t2"⟩, none, none⟩
    else if g == "m" then .ok ⟨some ⟨"immediate", "m"⟩, none, none⟩
    else .ok ⟨none, none, none⟩
  immediateQuery := fun _ =>
    .ok ([⟨"immediate", "m"⟩], [⟨"m", some "M", none, none⟩])
  membersQuery := fun g =>
    .ok (if g == "t" then
        [⟨"subjA", some "subjA", some "ldap"⟩, ⟨"m", some "m", some "g:gsa"⟩]
      else if g == "t2" then [⟨"z", some "z", some "g:gsa"⟩]
      else [])
  allQuery := fun _ => .ok []

/-- A backend where `t` is an `intersection` composite of `l` and `r`,
and both constituents are `effective` memberships resolving through the
same shared intermediate `x`: tracing `l` visits `x`, and tracing `r`
visits `x` again. -/
def interB : Backend where
  pairQuery := fun _ g =>
    if g == "t" then
      .ok ⟨some ⟨"composite", "t"⟩,
        some ⟨"t", some "T", none,
          some ⟨some "T", some "intersection",
            some ⟨"l", some "L"⟩, some ⟨"r", some "R"⟩⟩⟩,
        none⟩
    else if g == "l" then .ok ⟨some ⟨"effective", "l"⟩, none, none⟩
    else if g == "r" then .ok ⟨some ⟨"effective", "r"⟩, none, none⟩
    else if g == "x" then .ok ⟨some ⟨"immediate", "x"⟩, none, none⟩
    else .ok ⟨none, none, none⟩
  immediateQuery := fun _ => .ok ([⟨"immediate", "x"⟩], [])
  membersQuery := fun g =>
    .ok (if g == "l" then [⟨"x", some "x", some "g:gsa"⟩]
      else if g == "r" then [⟨"x", some "x", some "g:gsa"⟩] else [])
  allQuery := fun _ => .ok [⟨"effective", "l"⟩, ⟨"effective", "r"⟩]

/-- A backend whose pair query throws two levels down the effective
chain `e0 → e1 → e2`. -/
def errB : Backend where
  pairQuery := fun _ g =>
    if g == "e0" then .ok ⟨some ⟨"effective", "e0"⟩, none, none⟩
    else if g == "e1" then .ok ⟨some ⟨"effective", "e1"⟩, none, none⟩
    else if g == "e2" then .error "boom"
    else .ok ⟨none, none, none⟩
  immediateQuery := fun _ =>
    .ok ([⟨"immediate", "e1"⟩, ⟨"immediate", "e2"⟩], [])
  membersQuery := fun g =>
    .ok (if g == "e0" then [⟨"e1", some "e1", some "g:gsa"⟩]
      else if g == "e1" then [⟨"e2", some "e2", some "g:gsa"⟩] else [])
  allQuery := fun _ => .ok []

/-- A backend where the membership in `c` has type `composite` but the
accompanying group detail is absent. -/
def compNoDetailB : Backend where
  pairQuery := fun _ g =>
    if g == "c" then
      .ok ⟨some ⟨"composite", "c"⟩, some ⟨"c", some "C", none, none⟩, none⟩
    else .ok ⟨none, none, none⟩
  immediateQuery := fun _ => .ok ([], [])
  membersQuery := fun _ => .ok []
  allQuery := fun _ => .ok [⟨"immediate", "c"⟩]

/-! ### Claims -/

/-- Claim C1: whenever the depth argument exceeds the fixed maximum of 5,
the tracer returns a `max_depth_reached` terminal node immediately, with no
backend call; and against the synthetic backend `chainB`, which reports
effective membership with a fresh distinct intermediate group at every
level, the trace terminates with a `max_depth_reached` node. -/
theorem trace_depth_never_exceeds_five (b : Backend)
    (subjectId targetGroupName : String) (lookup : SubjectLookup)
    (visited : List String) (depth : Nat) (h : depth > 5) :
    traceMembershipRecursive b subjectId targetGroupName lookup visited depth =
      (.ok (some (.maxDepth
        "Maximum trace depth (5) reached - stopping trace to prevent timeout"
        targetGroupName)), []) ∧
    traceHasMaxDepth
      (traceMembershipRecursive chainB "s" "g0" ⟨"s", none⟩ [] 0) = true := by
  constructor
  · rw [traceMembershipRecursive]
    simp [MAX_DEPTH, h]
  · simp [traceMembershipRecursive, MAX_DEPTH, chainB, chainNext, insertVisited,
      firstIntersecting, jsOrStr, traceHasMaxDepth, hasMaxDepthNode]

/-- Witness for C1: at depth 6 the tracer returns the `max_depth_reached`
node without calling the backend. -/
theorem trace_depth_never_exceeds_five_witness :
    traceMembershipRecursive trivB "s" "g" ⟨"s", none⟩ [] 6 =
      (.ok (some (.maxDepth
        "Maximum trace depth (5) reached - stopping trace to prevent timeout"
        "g")), []) :=
  (trace_depth_never_exceeds_five trivB "s" "g" ⟨"s", none⟩ [] 6 (by omega)).1

/-- Counterexample to C2 as stated: a call whose `targetGroupName` is
already in `visited` does not always return a `cycle_detected` node — the
depth bound is checked first, so at depth 6 the call returns
`max_depth_reached` even though the target is in the visited set. -/
theorem cycle_shadowed_by_depth_counterexample :
    returnsCycleNode
      (traceMembershipRecursive trivB "s" "a" ⟨"s", none⟩ ["a"] 6) = false ∧
    traceMembershipRecursive trivB "s" "a" ⟨"s", none⟩ ["a"] 6 =
      (.ok (some (.maxDepth
        "Maximum trace depth (5) reached - stopping trace to prevent timeout"
        "a")), []) := by
  constructor <;>
    simp [traceMembershipRecursive, MAX_DEPTH, returnsCycleNode]

/-- Claim C2 (amended: the depth bound is checked before the cycle check,
so the cycle guard only fires at depth ≤ 5): every call at depth ≤ 5 whose
`targetGroupName` is already in `visited` returns a `cycle_detected`
terminal node immediately, with no backend call and no recursive call; and
on the synthetic backend `loopB`, whose membership chain for `a` loops back
to itself, the trace is caught by `cycle_detected`. -/
theorem cycle_detected_returns_immediately (b : Backend)
    (subjectId targetGroupName : String) (lookup : SubjectLookup)
    (visited : List String) (depth : Nat) (hdep : depth ≤ 5)
    (hvis : visited.contains targetGroupName = true) :
    traceMembershipRecursive b subjectId targetGroupName lookup visited depth =
      (.ok (some (.cycleDetected ("Cycle detected at " ++ targetGroupName)
        targetGroupName)), []) ∧
    traceHasCycle
      (traceMembershipRecursive loopB "s" "a" ⟨"s", none⟩ [] 0) = true := by
  constructor
  · rw [traceMembershipRecursive]
    rw [dif_neg (by simp only [MAX_DEPTH]; omega)]
    rw [if_pos hvis]
  · simp [traceMembershipRecursive, MAX_DEPTH, loopB, insertVisited,
      firstIntersecting, jsOrStr, traceHasCycle, hasCycleNode]

/-- Witness for C2 (amended): at depth 0 with `a` already visited, the
tracer returns the `cycle_detected` node with no backend call. -/
theorem cycle_detected_returns_immediately_witness :
    traceMembershipRecursive trivB "s" "a" ⟨"s", none⟩ ["a"] 0 =
      (.ok (some (.cycleDetected "Cycle detected at a" "a")), []) :=
  (cycle_detected_returns_immediately trivB "s" "a" ⟨"s", none⟩ ["a"] 0
    (by omega) (by rfl)).1

/-- Counterexample to C3 as stated: on `unionB` the subject is a member of
both constituents of the `union` composite `u` (both `isMember` flags are
true), yet only the left branch is traced — the returned node's right
chain is absent and no backend call is made for `r`.  The right branch is
traced only for `intersection` composites. -/
theorem union_right_branch_ignored_counterexample :
    traceMembershipRecursive unionB "s" "u" ⟨"s", none⟩ [] 0 =
      (.ok (some (.composite "u" "U" (some "union")
        "l" (some "L") true
        (some (some (.immediate "l" "l" "s is a direct member of l")))
        "r" (some "R") true none)),
       [.getMembershipPair ⟨"s", none⟩ "u", .getAllMemberships ⟨"s", none⟩,
        .getMembershipPair ⟨"s", none⟩ "l"]) := by
  simp [traceMembershipRecursive, MAX_DEPTH, unionB, insertVisited,
    compositeDetailOf, jsOrStr, Except.map]

/-- Claim C3 (amended: for a `union` composite the tracer only ever traces
the left branch — when the subject is a member of the left constituent it
recurses into it at `depth+1`; the right branch is never traced, even when
the subject is a member of the right constituent, its chain staying
absent and no backend call being made for it). -/
theorem union_traces_left_branch_only (b : Backend)
    (subjectId targetGroupName : String) (lookup : SubjectLookup)
    (visited : List String) (depth : Nat)
    (pr : PairResult) (m : WsMembership) (d : WsGroupDetail) (lg rg : CompRef)
    (allList : List WsMembership) (lres : Option TraceNode)
    (lcalls : List BackendCall)
    (hdep : depth ≤ 5) (hvis : visited.contains targetGroupName = false)
    (hpair : b.pairQuery lookup targetGroupName = .ok pr)
    (hm : pr.membership = some m) (hty : m.membershipType = "composite")
    (hcd : compositeDetailOf pr.group = some d)
    (hct : d.compositeType = some "union")
    (hlg : d.leftGroup = some lg) (hrg : d.rightGroup = some rg)
    (hall : b.allQuery lookup = .ok allList)
    (hleft : traceMembershipRecursive b subjectId lg.name lookup
      (insertVisited targetGroupName visited) (depth + 1) = (.ok lres, lcalls)) :
    traceMembershipRecursive b subjectId targetGroupName lookup visited depth =
      (if allList.any (fun mm => mm.groupName == lg.name) then
        (.ok (some (.composite targetGroupName
          (jsOrStr (pr.group.bind WsGroup.displayName) targetGroupName)
          (some "union") lg.name lg.displayName true (some lres)
          rg.name rg.displayName
          (allList.any (fun mm => mm.groupName == rg.name)) none)),
         [.getMembershipPair lookup targetGroupName, .getAllMemberships lookup]
           ++ lcalls)
      else
        (.ok (some (.composite targetGroupName
          (jsOrStr (pr.group.bind WsGroup.displayName) targetGroupName)
          (some "union") lg.name lg.displayName false none
          rg.name rg.displayName
          (allList.any (fun mm => mm.groupName == rg.name)) none)),
         [.getMembershipPair lookup targetGroupName,
          .getAllMemberships lookup])) := by
  rw [traceMembershipRecursive]
  rw [dif_neg (by simp only [MAX_DEPTH]; omega)]
  rw [if_neg (by simpa using hvis)]
  by_cases hil : allList.any (fun mm => mm.groupName == lg.name) = true
  · simp [hpair, hm, hty, hcd, hct, hlg, hrg, hall, hleft, hil, Except.map]
  · simp [hpair, hm, hty, hcd, hct, hlg, hrg, hall, hleft, hil, Except.map]

/-- Witness for C3 (amended), on `unionB`: the left branch is traced
(the subject being a member of `l`), the right branch is not. -/
theorem union_traces_left_branch_only_witness :
    traceMembershipRecursive unionB "s" "u" ⟨"s", none⟩ [] 0 =
      (.ok (some (.composite "u" "U" (some "union")
        "l" (some "L") true
        (some (some (.immediate "l" "l" "s is a direct member of l")))
        "r" (some "R") true none)),
       [.getMembershipPair ⟨"s", none⟩ "u", .getAllMemberships ⟨"s", none⟩,
        .getMembershipPair ⟨"s", none⟩ "l"]) :=
  union_traces_left_branch_only unionB "s" "u" ⟨"s", none⟩ [] 0
    ⟨some ⟨"composite", "u"⟩,
      some ⟨"u", some "U", none,
        some ⟨some "T", some "union", some ⟨"l", some "L"⟩, some ⟨"r", some "R"⟩⟩⟩,
      none⟩
    ⟨"composite", "u"⟩
    ⟨some "T", some "union", some ⟨"l", some "L"⟩, some ⟨"r", some "R"⟩⟩
    ⟨"l", some "L"⟩ ⟨"r", some "R"⟩
    [⟨"immediate", "l"⟩, ⟨"immediate", "r"⟩]
    (some (.immediate "l" "l" "s is a direct member of l"))
    [.getMembershipPair ⟨"s", none⟩ "l"]
    (by omega) (by rfl) (by rfl) (by rfl) (by rfl) (by rfl) (by rfl)
    (by rfl) (by rfl) (by rfl)
    (by simp [traceMembershipRecursive, MAX_DEPTH, unionB, insertVisited, jsOrStr])

/-- Claim C4: in the effective-membership branch with a non-empty
intersection, the tracer performs exactly two additional backend calls
(the subject's immediate memberships and the target's members, the latter
filtered to group-typed members by the `g:gsa` source marker), takes only
the first intersecting group in backend-returned order as the single
intermediate, recurses into it at `depth+1`, and wraps the recursive
result as the returned `effective` node's chain, with the intermediate
group named on the node. -/
theorem effective_first_intersection_traced (b : Backend)
    (subjectId targetGroupName : String) (lookup : SubjectLookup)
    (visited : List String) (depth : Nat)
    (pr : PairResult) (m : WsMembership)
    (sms : List WsMembership) (wgs : List WsGroup) (tms : List WsSubject)
    (ig : String × String) (cn : Option TraceNode) (cc : List BackendCall)
    (hdep : depth ≤ 5) (hvis : visited.contains targetGroupName = false)
    (hpair : b.pairQuery lookup targetGroupName = .ok pr)
    (hm : pr.membership = some m) (hty : m.membershipType = "effective")
    (himm : b.immediateQuery lookup = .ok (sms, wgs))
    (hmem : b.membersQuery targetGroupName = .ok tms)
    (hfi : firstIntersecting (tms.filter (fun mm => mm.sourceId == some "g:gsa"))
      ((sms.map WsMembership.groupName).dedup) wgs = some ig)
    (hrec : traceMembershipRecursive b subjectId ig.1 lookup
      (insertVisited targetGroupName visited) (depth + 1) = (.ok cn, cc)) :
    traceMembershipRecursive b subjectId targetGroupName lookup visited depth =
      (.ok (some (.effective targetGroupName
        (jsOrStr (pr.group.bind WsGroup.displayName) targetGroupName)
        (jsOrStr (pr.subject.bind WsSubject.name) subjectId
          ++ " is an effective member of "
          ++ jsOrStr (pr.group.bind WsGroup.displayName) targetGroupName
          ++ " via " ++ ig.2)
        ig.1 ig.2 cn)),
       [.getMembershipPair lookup targetGroupName,
        .getImmediateMemberships lookup,
        .getGroupMembers targetGroupName] ++ cc) := by
  rw [traceMembershipRecursive]
  rw [dif_neg (by simp only [MAX_DEPTH]; omega)]
  rw [if_neg (by simpa using hvis)]
  simp [hpair, hm, hty, himm, hmem, hfi, hrec]

/-- Witness for C4 on `effB`: the single intersecting group `m` (first in
the target's member order) is recursed into, the two additional calls
appearing between the pair fetch and the recursion's own call. -/
theorem effective_first_intersection_traced_witness :
    traceMembershipRecursive effB "s" "t" ⟨"s", none⟩ [] 0 =
      (.ok (some (.effective "t" "t" "s is an effective member of t via M"
        "m" "M" (some (.immediate "m" "m" "s is a direct member of m")))),
       [.getMembershipPair ⟨"s", none⟩ "t",
        .getImmediateMemberships ⟨"s", none⟩,
        .getGroupMembers "t",
        .getMembershipPair ⟨"s", none⟩ "m"]) :=
  effective_first_intersection_traced effB "s" "t" ⟨"s", none⟩ [] 0
    ⟨some ⟨"effective", "t"⟩, none, none⟩ ⟨"effective", "t"⟩
    [⟨"immediate", "m"⟩] [⟨"m", some "M", none, none⟩]
    [⟨"subjA", some "subjA", some "ldap"⟩, ⟨"m", some "m", some "g:gsa"⟩]
    ("m", "M")
    (some (.immediate "m" "m" "s is a direct member of m"))
    [.getMembershipPair ⟨"s", none⟩ "m"]
    (by omega) (by rfl) (by rfl) (by rfl) (by rfl) (by rfl) (by rfl) (by rfl)
    (by simp [traceMembershipRecursive, MAX_DEPTH, effB, insertVisited, jsOrStr])

/-- Claim C5: for an effective membership whose two immediate sets do not
intersect, the tracer returns an `effective` node with no chain and no
further recursion (the call list stops at the two diagnostic calls), whose
count fields are the cardinalities of the two intersected sets (the
deduplicated subject-side name set and the group-typed member list); the
flattener produces exactly one hop for such a node. -/
theorem effective_empty_intersection_no_recursion (b : Backend)
    (subjectId targetGroupName : String) (lookup : SubjectLookup)
    (visited : List String) (depth : Nat)
    (pr : PairResult) (m : WsMembership)
    (sms : List WsMembership) (wgs : List WsGroup) (tms : List WsSubject)
    (hdep : depth ≤ 5) (hvis : visited.contains targetGroupName = false)
    (hpair : b.pairQuery lookup targetGroupName = .ok pr)
    (hm : pr.membership = some m) (hty : m.membershipType = "effective")
    (himm : b.immediateQuery lookup = .ok (sms, wgs))
    (hmem : b.membersQuery targetGroupName = .ok tms)
    (hfi : firstIntersecting (tms.filter (fun mm => mm.sourceId == some "g:gsa"))
      ((sms.map WsMembership.groupName).dedup) wgs = none) :
    traceMembershipRecursive b subjectId targetGroupName lookup visited depth =
      (.ok (some (.effectiveNoPath targetGroupName
        (jsOrStr (pr.group.bind WsGroup.displayName) targetGroupName)
        (jsOrStr (pr.subject.bind WsSubject.name) subjectId
          ++ " is an effective member of "
          ++ jsOrStr (pr.group.bind WsGroup.displayName) targetGroupName)
        "Could not determine intermediate group path - membership may be through nested groups beyond immediate level"
        ((sms.map WsMembership.groupName).dedup).length
        (tms.filter (fun mm => mm.sourceId == some "g:gsa")).length)),
       [.getMembershipPair lookup targetGroupName,
        .getImmediateMemberships lookup,
        .getGroupMembers targetGroupName]) ∧
    flattenTracePath (some (.effectiveNoPath targetGroupName
        (jsOrStr (pr.group.bind WsGroup.displayName) targetGroupName)
        (jsOrStr (pr.subject.bind WsSubject.name) subjectId
          ++ " is an effective member of "
          ++ jsOrStr (pr.group.bind WsGroup.displayName) targetGroupName)
        "Could not determine intermediate group path - membership may be through nested groups beyond immediate level"
        ((sms.map WsMembership.groupName).dedup).length
        (tms.filter (fun mm => mm.sourceId == some "g:gsa")).length)) =
      .ok [catchAllHop (some targetGroupName) none "effective"
        (jsOrStr (pr.subject.bind WsSubject.name) subjectId
          ++ " is an effective member of "
          ++ jsOrStr (pr.group.bind WsGroup.displayName) targetGroupName)] := by
  constructor
  · rw [traceMembershipRecursive]
    rw [dif_neg (by simp only [MAX_DEPTH]; omega)]
    rw [if_neg (by simpa using hvis)]
    simp [hpair, hm, hty, himm, hmem, hfi]
  · rfl

/-- Witness for C5 on `effB` and target `t2`: the subject's one immediate
group does not intersect the target's one group-typed member, so the node
carries counts 1 and 1, no chain, and flattens to a single hop. -/
theorem effective_empty_intersection_no_recursion_witness :
    traceMembershipRecursive effB "s" "t2" ⟨"s", none⟩ [] 0 =
      (.ok (some (.effectiveNoPath "t2" "t2" "s is an effective member of t2"
        "Could not determine intermediate group path - membership may be through nested groups beyond immediate level"
        1 1)),
       [.getMembershipPair ⟨"s", none⟩ "t2",
        .getImmediateMemberships ⟨"s", none⟩,
        .getGroupMembers "t2"]) ∧
    flattenTracePath (some (.effectiveNoPath "t2" "t2"
        "s is an effective member of t2"
        "Could not determine intermediate group path - membership may be through nested groups beyond immediate level"
        1 1)) =
      .ok [catchAllHop (some "t2") none "effective"
        "s is an effective member of t2"] :=
  effective_empty_intersection_no_recursion effB "s" "t2" ⟨"s", none⟩ [] 0
    ⟨some ⟨"effective", "t2"⟩, none, none⟩ ⟨"effective", "t2"⟩
    [⟨"immediate", "m"⟩] [⟨"m", some "M", none, none⟩]
    [⟨"z", some "z", some "g:gsa"⟩]
    (by omega) (by rfl) (by rfl) (by rfl) (by rfl) (by rfl) (by rfl) (by rfl)

/-- Claim C6: when the initial membership fetch returns zero membership
records, `handleTraceMembership` returns `isMember: false` with the
not-a-member message, makes exactly one backend call in total, and never
invokes the recursive tracer. -/
theorem not_member_short_circuits_tracer (b : Backend)
    (groupName subjectId : String) (subjectSourceId : Option String)
    (pr : PairResult)
    (hpair : b.pairQuery ⟨subjectId, subjectSourceId⟩ groupName = .ok pr)
    (hm : pr.membership = none) :
    handleTraceMembership b groupName subjectId subjectSourceId =
      (.notMember subjectId groupName "Subject is not a member of this group",
       [.getMembershipPair ⟨subjectId, subjectSourceId⟩ groupName]) := by
  simp [handleTraceMembership, hpair, hm]

/-- Witness for C6 on `trivB`: a non-member subject gets the short-circuit
result after a single backend call. -/
theorem not_member_short_circuits_tracer_witness :
    handleTraceMembership trivB "g" "s" none =
      (.notMember "s" "g" "Subject is not a member of this group",
       [.getMembershipPair ⟨"s", none⟩ "g"]) :=
  not_member_short_circuits_tracer trivB "g" "s" none ⟨none, none, none⟩
    (by rfl) (by rfl)

/-- The hop the flattener pushes for a node itself (as opposed to the hops
contributed by its chain or branches), by case on the node shape. -/
def ownHop : TraceNode → Hop
  | .immediate gn gdn desc =>
    { groupName := some gn, groupDisplayName := some gdn,
      membershipType := some "immediate", description := some desc }
  | .effective gn gdn desc inm _idn chain =>
    match chain with
    | some _ =>
      { groupName := some gn, groupDisplayName := some gdn,
        membershipType := some "effective", description := some desc,
        viaGroup := some inm }
    | none => catchAllHop (some gn) none "effective" desc
  | .effectiveNoPath gn _gdn desc _note _c1 _c2 =>
    catchAllHop (some gn) none "effective" desc
  | .composite gn gdn ct ln _ldn _lim lch rn _rdn _rim rch =>
    { groupName := some gn, groupDisplayName := some gdn,
      membershipType := some "composite", compositeType := ct,
      leftGroup := some ln, rightGroup := some rn,
      pathThroughLeftGroup :=
        (match lch with | some (some _) => some true | _ => none),
      pathThroughRightGroup :=
        (match rch with | some (some _) => some true | _ => none) }
  | .maxDepth desc tg => catchAllHop none (some tg) "max_depth_reached" desc
  | .cycleDetected desc tg => catchAllHop none (some tg) "cycle_detected" desc
  | .fallback t gn gdn desc =>
    if t == "immediate" then
      { groupName := some gn, groupDisplayName := some gdn,
        membershipType := some "immediate", description := some desc }
    else catchAllHop (some gn) none t desc

theorem lastHop_append (l : List Hop) (a : Hop) :
    (l ++ [a]).getLast? = some a := by
  rw [List.getLast?_append_cons]; rfl

theorem flattenNode_last_eq_ownHop (n : TraceNode) (hops : List Hop)
    (h : flattenNode n = .ok hops) : hops.getLast? = some (ownHop n) := by
  cases n with
  | maxDepth d tg => cases h; rfl
  | cycleDetected d tg => cases h; rfl
  | immediate gn gdn d => cases h; rfl
  | effectiveNoPath gn gdn d nt a b => cases h; rfl
  | effective gn gdn d inm idn chain =>
    cases chain with
    | none => cases h; rfl
    | some c =>
      simp only [flattenNode] at h
      cases hfc : flattenNode c with
      | error e => rw [hfc] at h; exact Except.noConfusion h
      | ok cp =>
        rw [hfc] at h
        cases h
        simp [ownHop, lastHop_append]
  | fallback t gn gdn d =>
    simp only [flattenNode] at h
    by_cases ht : (t == "immediate") = true
    · rw [if_pos ht] at h
      cases h
      simp [ownHop, ht]
    · rw [if_neg ht] at h
      by_cases ht2 : (t == "composite") = true
      · rw [if_pos ht2] at h
        exact Except.noConfusion h
      · rw [if_neg ht2] at h
        cases h
        simp [ownHop, ht]
  | composite gn gdn ct ln ldn lim lch rn rdn rim rch =>
    rcases lch with _ | (_ | lc) <;> rcases rch with _ | (_ | rc) <;>
      simp only [flattenNode] at h
    case none.none | none.some.none | some.none.none | some.none.some.none =>
      cases h; simp [ownHop, lastHop_append]
    case none.some.some | some.none.some.some =>
      cases hfr : flattenNode rc with
      | error e => rw [hfr] at h; exact Except.noConfusion h
      | ok rp => rw [hfr] at h; cases h; simp [ownHop, lastHop_append]
    case some.some.none | some.some.some.none =>
      cases hfl : flattenNode lc with
      | error e => rw [hfl] at h; exact Except.noConfusion h
      | ok lp => rw [hfl] at h; cases h; simp [ownHop, lastHop_append]
    case some.some.some.some =>
      cases hfl : flattenNode lc with
      | error e => rw [hfl] at h; exact Except.noConfusion h
      | ok lp =>
        cases hfr : flattenNode rc with
        | error e => rw [hfl, hfr] at h; exact Except.noConfusion h
        | ok rp => rw [hfl, hfr] at h; cases h; simp [ownHop, lastHop_append]

/-- Claim C7: the flattener is bottom-up — whenever it succeeds, the
node's own hop is the last element of the flattened list; an `immediate`
node flattens to exactly one `immediate` hop naming its group; an
`effective` node with a chain appends its own hop (annotated with
`viaGroup` equal to the intermediate's name) after the chain's hops; and a
composite node places left-branch hops before right-branch hops before its
own summary hop. -/
theorem flatten_bottom_up :
    (∀ n hops, flattenNode n = .ok hops → hops.getLast? = some (ownHop n)) ∧
    (∀ gn gdn desc, flattenNode (.immediate gn gdn desc) =
      .ok [{ groupName := some gn, groupDisplayName := some gdn,
             membershipType := some "immediate",
             description := some desc }]) ∧
    (∀ gn gdn desc inm idn c cp, flattenNode c = .ok cp →
      flattenNode (.effective gn gdn desc inm idn (some c)) =
        .ok (cp ++ [{ groupName := some gn, groupDisplayName := some gdn,
                      membershipType := some "effective",
                      description := some desc,
                      viaGroup := some inm }])) ∧
    (∀ gn gdn ct ln ldn lim rn rdn rim lc rc lp rp,
      flattenNode lc = .ok lp → flattenNode rc = .ok rp →
      flattenNode (.composite gn gdn ct ln ldn lim (some (some lc))
          rn rdn rim (some (some rc))) =
        .ok (lp ++ rp ++
          [{ groupName := some gn, groupDisplayName := some gdn,
             membershipType := some "composite", compositeType := ct,
             leftGroup := some ln, rightGroup := some rn,
             pathThroughLeftGroup := some true,
             pathThroughRightGroup := some true }])) := by
  refine ⟨flattenNode_last_eq_ownHop, ?_, ?_, ?_⟩
  · intro gn gdn desc; rfl
  · intro gn gdn desc inm idn c cp h
    simp only [flattenNode, h]
  · intro gn gdn ct ln ldn lim rn rdn rim lc rc lp rp hl hr
    simp only [flattenNode, hl, hr]

/-- Witness for C7 at concrete nodes: a chained effective node, an
immediate node, and an intersection composite node. -/
theorem flatten_bottom_up_witness :
    ([{ groupName := some "i", groupDisplayName := some "I",
        membershipType := some "immediate", description := some "di" },
      { groupName := some "g", groupDisplayName := some "G",
        membershipType := some "effective", description := some "d",
        viaGroup := some "m" }] : List Hop).getLast? =
      some (ownHop (.effective "g" "G" "d" "m" "M"
        (some (.immediate "i" "I" "di")))) ∧
    flattenNode (.immediate "i" "I" "di") =
      .ok [{ groupName := some "i", groupDisplayName := some "I",
             membershipType := some "immediate",
             description := some "di" }] ∧
    flattenNode (.effective "g" "G" "d" "m" "M"
        (some (.immediate "i" "I" "di"))) =
      .ok ([{ groupName := some "i", groupDisplayName := some "I",
              membershipType := some "immediate", description := some "di" }]
        ++ [{ groupName := some "g", groupDisplayName := some "G",
              membershipType := some "effective", description := some "d",
              viaGroup := some "m" }]) ∧
    flattenNode (.composite "k" "K" (some "intersection")
        "l" (some "L") true (some (some (.immediate "i" "I" "di")))
        "r" (some "R") true (some (some (.immediate "j" "J" "dj")))) =
      .ok ([{ groupName := some "i", groupDisplayName := some "I",
              membershipType := some "immediate", description := some "di" }]
        ++ [{ groupName := some "j", groupDisplayName := some "J",
              membershipType := some "immediate", description := some "dj" }]
        ++ [{ groupName := some "k", groupDisplayName := some "K",
              membershipType := some "composite",
              compositeType := some "intersection",
              leftGroup := some "l", rightGroup := some "r",
              pathThroughLeftGroup := some true,
              pathThroughRightGroup := some true }]) :=
  ⟨flatten_bottom_up.1 (.effective "g" "G" "d" "m" "M"
      (some (.immediate "i" "I" "di"))) _ (by rfl),
   flatten_bottom_up.2.1 "i" "I" "di",
   flatten_bottom_up.2.2.1 "g" "G" "d" "m" "M" (.immediate "i" "I" "di") _
     (by rfl),
   flatten_bottom_up.2.2.2 "k" "K" (some "intersection") "l" (some "L") true
     "r" (some "R") true (.immediate "i" "I" "di") (.immediate "j" "J" "dj")
     _ _ (by rfl) (by rfl)⟩

/-- Claim C8: every recursive branch call receives an independent copy of
the caller's visited set — for an intersection composite with both
memberships, the left and the right branch are both traced against the
same set `insertVisited targetGroupName visited`, the names visited while
tracing the left branch never being observed by the right branch; on
`interB`, whose two branches resolve through the same shared intermediate
`x`, the right branch therefore resolves `x` normally instead of reporting
a spurious cycle. -/
theorem visited_copied_per_branch (b : Backend)
    (subjectId targetGroupName : String) (lookup : SubjectLookup)
    (visited : List String) (depth : Nat)
    (pr : PairResult) (m : WsMembership) (d : WsGroupDetail) (lg rg : CompRef)
    (allList : List WsMembership) (lres rres : Option TraceNode)
    (lcalls rcalls : List BackendCall)
    (hdep : depth ≤ 5) (hvis : visited.contains targetGroupName = false)
    (hpair : b.pairQuery lookup targetGroupName = .ok pr)
    (hm : pr.membership = some m) (hty : m.membershipType = "composite")
    (hcd : compositeDetailOf pr.group = some d)
    (hct : d.compositeType = some "intersection")
    (hlg : d.leftGroup = some lg) (hrg : d.rightGroup = some rg)
    (hall : b.allQuery lookup = .ok allList)
    (hil : allList.any (fun mm => mm.groupName == lg.name) = true)
    (hir : allList.any (fun mm => mm.groupName == rg.name) = true)
    (hleft : traceMembershipRecursive b subjectId lg.name lookup
      (insertVisited targetGroupName visited) (depth + 1) = (.ok lres, lcalls))
    (hright : traceMembershipRecursive b subjectId rg.name lookup
      (insertVisited targetGroupName visited) (depth + 1) = (.ok rres, rcalls)) :
    traceMembershipRecursive b subjectId targetGroupName lookup visited depth =
      (.ok (some (.composite targetGroupName
        (jsOrStr (pr.group.bind WsGroup.displayName) targetGroupName)
        (some "intersection") lg.name lg.displayName true (some lres)
        rg.name rg.displayName true (some rres))),
       [.getMembershipPair lookup targetGroupName, .getAllMemberships lookup]
         ++ lcalls ++ rcalls) ∧
    traceHasCycle
      (traceMembershipRecursive interB "s" "t" ⟨"s", none⟩ [] 0) = false := by
  constructor
  · rw [traceMembershipRecursive]
    rw [dif_neg (by simp only [MAX_DEPTH]; omega)]
    rw [if_neg (by simpa using hvis)]
    simp [hpair, hm, hty, hcd, hct, hlg, hrg, hall, hil, hir, hleft, hright,
      Except.map]
  · simp [traceMembershipRecursive, MAX_DEPTH, interB, insertVisited,
      compositeDetailOf, firstIntersecting, jsOrStr, traceHasCycle,
      hasCycleNode, Except.map]

/-- Witness for C8 on `interB`: both branches of the intersection
composite are traced with the same copy of the visited set, and the right
branch resolves the shared intermediate `x` without a cycle report. -/
theorem visited_copied_per_branch_witness :
    traceMembershipRecursive interB "s" "t" ⟨"s", none⟩ [] 0 =
      (.ok (some (.composite "t" "T" (some "intersection")
        "l" (some "L") true
        (some (some (.effective "l" "l" "s is an effective member of l via x"
          "x" "x" (some (.immediate "x" "x" "s is a direct member of x")))))
        "r" (some "R") true
        (some (some (.effective "r" "r" "s is an effective member of r via x"
          "x" "x" (some (.immediate "x" "x" "s is a direct member of x"))))))),
       [.getMembershipPair ⟨"s", none⟩ "t", .getAllMemberships ⟨"s", none⟩]
         ++ [.getMembershipPair ⟨"s", none⟩ "l",
             .getImmediateMemberships ⟨"s", none⟩,
             .getGroupMembers "l",
             .getMembershipPair ⟨"s", none⟩ "x"]
         ++ [.getMembershipPair ⟨"s", none⟩ "r",
             .getImmediateMemberships ⟨"s", none⟩,
             .getGroupMembers "r",
             .getMembershipPair ⟨"s", none⟩ "x"]) :=
  (visited_copied_per_branch interB "s" "t" ⟨"s", none⟩ [] 0
    ⟨some ⟨"composite", "t"⟩,
      some ⟨"t", some "T", none,
        some ⟨some "T", some "intersection",
          some ⟨"l", some "L"⟩, some ⟨"r", some "R"⟩⟩⟩,
      none⟩
    ⟨"composite", "t"⟩
    ⟨some "T", some "intersection", some ⟨"l", some "L"⟩, some ⟨"r", some "R"⟩⟩
    ⟨"l", some "L"⟩ ⟨"r", some "R"⟩
    [⟨"effective", "l"⟩, ⟨"effective", "r"⟩]
    (some (.effective "l" "l" "s is an effective member of l via x"
      "x" "x" (some (.immediate "x" "x" "s is a direct member of x"))))
    (some (.effective "r" "r" "s is an effective member of r via x"
      "x" "x" (some (.immediate "x" "x" "s is a direct member of x"))))
    [.getMembershipPair ⟨"s", none⟩ "l", .getImmediateMemberships ⟨"s", none⟩,
     .getGroupMembers "l", .getMembershipPair ⟨"s", none⟩ "x"]
    [.getMembershipPair ⟨"s", none⟩ "r", .getImmediateMemberships ⟨"s", none⟩,
     .getGroupMembers "r", .getMembershipPair ⟨"s", none⟩ "x"]
    (by omega) (by rfl) (by rfl) (by rfl) (by rfl) (by rfl) (by rfl)
    (by rfl) (by rfl) (by rfl) (by rfl) (by rfl)
    (by simp [traceMembershipRecursive, MAX_DEPTH, interB, insertVisited,
      firstIntersecting, jsOrStr])
    (by simp [traceMembershipRecursive, MAX_DEPTH, interB, insertVisited,
      firstIntersecting, jsOrStr])).1

/-- Claim C9: a backend exception aborts the whole trace — if the tracer
invocation inside `handleTraceMembership` propagates an error, the handler
returns the `isError` shape with the error message and no partial
membership path; within the tracer, an error from a recursive
effective-branch call propagates unmodified; and on `errB`, whose pair
query throws two levels down the chain, the invocation returns the error
shape. -/
theorem backend_error_aborts_trace (b : Backend)
    (groupName subjectId : String) (subjectSourceId : Option String)
    (pr : PairResult) (m : WsMembership) (e : String)
    (calls : List BackendCall)
    (hpair : b.pairQuery ⟨subjectId, subjectSourceId⟩ groupName = .ok pr)
    (hm : pr.membership = some m)
    (htr : traceMembershipRecursive b subjectId groupName
      ⟨subjectId, subjectSourceId⟩ [] 0 = (.error e, calls)) :
    handleTraceMembership b groupName subjectId subjectSourceId =
      (.errorResult ("Error tracing membership: " ++ e),
       .getMembershipPair ⟨subjectId, subjectSourceId⟩ groupName :: calls) ∧
    (∀ (b' : Backend) (sid tg : String) (lookup : SubjectLookup)
       (visited : List String) (depth : Nat) (pr' : PairResult)
       (m' : WsMembership) (sms : List WsMembership) (wgs : List WsGroup)
       (tms : List WsSubject) (ig : String × String) (e' : String)
       (cc : List BackendCall),
      depth ≤ 5 → visited.contains tg = false →
      b'.pairQuery lookup tg = .ok pr' → pr'.membership = some m' →
      m'.membershipType = "effective" →
      b'.immediateQuery lookup = .ok (sms, wgs) →
      b'.membersQuery tg = .ok tms →
      firstIntersecting (tms.filter (fun mm => mm.sourceId == some "g:gsa"))
        ((sms.map WsMembership.groupName).dedup) wgs = some ig →
      traceMembershipRecursive b' sid ig.1 lookup (insertVisited tg visited)
        (depth + 1) = (.error e', cc) →
      traceMembershipRecursive b' sid tg lookup visited depth =
        (.error e', [.getMembershipPair lookup tg,
          .getImmediateMemberships lookup, .getGroupMembers tg] ++ cc)) ∧
    handleTraceMembership errB "e0" "s" none =
      (.errorResult "Error tracing membership: boom",
       [.getMembershipPair ⟨"s", none⟩ "e0",
        .getMembershipPair ⟨"s", none⟩ "e0",
        .getImmediateMemberships ⟨"s", none⟩, .getGroupMembers "e0",
        .getMembershipPair ⟨"s", none⟩ "e1",
        .getImmediateMemberships ⟨"s", none⟩, .getGroupMembers "e1",
        .getMembershipPair ⟨"s", none⟩ "e2"]) := by
  refine ⟨?_, ?_, ?_⟩
  · simp [handleTraceMembership, hpair, hm, htr]
  · intro b' sid tg lookup visited depth pr' m' sms wgs tms ig e' cc
      hdep hvis hpair' hm' hty' himm hmem hfi hrec
    rw [traceMembershipRecursive]
    rw [dif_neg (by simp only [MAX_DEPTH]; omega)]
    rw [if_neg (by simpa using hvis)]
    simp [hpair', hm', hty', himm, hmem, hfi, hrec]
  · simp [handleTraceMembership, traceMembershipRecursive, MAX_DEPTH, errB,
      insertVisited, firstIntersecting, jsOrStr]

/-- Witness for C9 on `errB`: the error thrown by the pair query two
levels down the effective chain surfaces as the tool-level error shape. -/
theorem backend_error_aborts_trace_witness :
    handleTraceMembership errB "e0" "s" none =
      (.errorResult "Error tracing membership: boom",
       [.getMembershipPair ⟨"s", none⟩ "e0",
        .getMembershipPair ⟨"s", none⟩ "e0",
        .getImmediateMemberships ⟨"s", none⟩, .getGroupMembers "e0",
        .getMembershipPair ⟨"s", none⟩ "e1",
        .getImmediateMemberships ⟨"s", none⟩, .getGroupMembers "e1",
        .getMembershipPair ⟨"s", none⟩ "e2"]) :=
  (backend_error_aborts_trace errB "e0" "s" none
    ⟨some ⟨"effective", "e0"⟩, none, none⟩ ⟨"effective", "e0"⟩ "boom"
    [.getMembershipPair ⟨"s", none⟩ "e0",
     .getImmediateMemberships ⟨"s", none⟩, .getGroupMembers "e0",
     .getMembershipPair ⟨"s", none⟩ "e1",
     .getImmediateMemberships ⟨"s", none⟩, .getGroupMembers "e1",
     .getMembershipPair ⟨"s", none⟩ "e2"]
    (by rfl) (by rfl)
    (by simp [traceMembershipRecursive, MAX_DEPTH, errB, insertVisited,
      firstIntersecting, jsOrStr])).1

/-- Claim C10: a membership record of type `composite` whose group detail
does not carry `hasComposite = T` (for example, the detail is absent) does
not enter the composite branch — the tracer issues no all-memberships
query, does not recurse, and returns the terminal fallback node whose type
field is the raw membership-type string with a generic description. -/
theorem composite_without_detail_falls_back (b : Backend)
    (subjectId targetGroupName : String) (lookup : SubjectLookup)
    (visited : List String) (depth : Nat) (pr : PairResult)
    (m : WsMembership)
    (hdep : depth ≤ 5) (hvis : visited.contains targetGroupName = false)
    (hpair : b.pairQuery lookup targetGroupName = .ok pr)
    (hm : pr.membership = some m) (hty : m.membershipType = "composite")
    (hcd : compositeDetailOf pr.group = none) :
    traceMembershipRecursive b subjectId targetGroupName lookup visited depth =
      (.ok (some (.fallback "composite" targetGroupName
        (jsOrStr (pr.group.bind WsGroup.displayName) targetGroupName)
        (jsOrStr (pr.subject.bind WsSubject.name) subjectId
          ++ " has membership type " ++ "composite" ++ " in "
          ++ jsOrStr (pr.group.bind WsGroup.displayName) targetGroupName))),
       [.getMembershipPair lookup targetGroupName]) := by
  rw [traceMembershipRecursive]
  rw [dif_neg (by simp only [MAX_DEPTH]; omega)]
  rw [if_neg (by simpa using hvis)]
  simp [hpair, hm, hty, hcd]

/-- Witness for C10 on `compNoDetailB`: the `composite`-typed membership
without a group detail yields the fallback node after the single pair
call. -/
theorem composite_without_detail_falls_back_witness :
    traceMembershipRecursive compNoDetailB "s" "c" ⟨"s", none⟩ [] 0 =
      (.ok (some (.fallback "composite" "c" "C"
        "s has membership type composite in C")),
       [.getMembershipPair ⟨"s", none⟩ "c"]) :=
  composite_without_detail_falls_back compNoDetailB "s" "c" ⟨"s", none⟩ [] 0
    ⟨some ⟨"composite", "c"⟩, some ⟨"c", some "C", none, none⟩, none⟩
    ⟨"composite", "c"⟩
    (by omega) (by rfl) (by rfl) (by rfl) (by rfl) (by rfl)
